import Mathlib

/-!
Shallow embedding of the multi-agent research orchestrator
(`src/agents/researcher.py`, `src/agents/fact_checker.py`,
`src/agents/writer.py`, `src/orchestrator/multi_agent_orchestrator.py`).

The remote chat-completion service ("Generation Capability") is modelled as
an oracle `GenCap : Nat → GenReq → Except GenErr String`: it receives the
structured prompt (system instruction plus human message) of the i-th call
made on one orchestrator instance and either returns the generated text or
fails.  Every agent operation performs exactly one such call.

The mutable orchestrator instance (`self.workflow_history`, plus the number
of generation calls issued so far and the sequence of agent-method calls
issued so far, which we record for observability) is threaded explicitly as
an `OrchState`.  `datetime.now()` is modelled by a monotone logical clock:
the timestamp of a log entry is the length of the history at logging time.
-/

/-- A structured prompt sent to the generation service: the fixed system
instruction and the fully substituted human message. -/
structure GenReq where
  system : String
  human : String
deriving DecidableEq, Repr

/-- A failure of the generation collaborator (network, auth, malformed
response); the payload is opaque. -/
structure GenErr where
  msg : String
deriving DecidableEq, Repr

/-- The generation capability: answer (or fail) the i-th call made on one
orchestrator instance, given the prompt of that call. -/
def GenCap : Type := Nat → GenReq → Except GenErr String

/-- Errors a pipeline run can raise: a propagated generation failure, or a
Python `IndexError` / `KeyError` from list indexing / dict lookup. -/
inductive RunError where
  | genFailure (e : GenErr)
  | indexOut
  | keyMissing
deriving DecidableEq, Repr

/- ## Agent result records (the dicts returned by the agent methods) -/

/-- Result dict of `ResearcherAgent.research`. -/
structure ResearchResult where
  agent : String
  topic : String
  findings : String
  needs_fact_checking : Bool
deriving DecidableEq, Repr

/-- Result dict of `FactCheckerAgent.fact_check`. -/
structure FactCheckResult where
  agent : String
  topic : String
  fact_check_report : String
  status : String
deriving DecidableEq, Repr

/-- Result dict of `FactCheckerAgent.cross_check`. -/
structure CrossCheckResult where
  agent : String
  topic : String
  cross_check_report : String
deriving DecidableEq, Repr

/-- Result dict of `WriterAgent.write_article`. -/
structure ArticleResult where
  agent : String
  topic : String
  style : String
  content_type : String
  content : String
deriving DecidableEq, Repr

/-- Result dict of `WriterAgent.write_summary`. -/
structure SummaryResult where
  agent : String
  topic : String
  content_type : String
  content : String
deriving DecidableEq, Repr

/-- Result dict of `WriterAgent.write_comparison`. -/
structure ComparisonResult where
  agent : String
  topic : String
  content_type : String
  content : String
deriving DecidableEq, Repr

/- ## Prompt construction (the `ChatPromptTemplate` of each agent method,
after variable substitution, exactly as `chain.invoke` builds it) -/

/-- `ResearcherAgent.system_prompt`. -/
def researcherSystemPrompt : String :=
  "You are an expert researcher with deep knowledge across multiple domains.\nYour job is to provide comprehensive, well-structured research on any given topic.\n\nWhen researching a topic:\n1. Break down the topic into key subtopics\n2. Provide factual information from multiple perspectives\n3. Include relevant statistics, examples, and case studies\n4. Cite potential sources (even if simulated)\n5. Identify areas that need fact-checking\n\nFormat your research as a structured report with clear sections."

/-- `FactCheckerAgent.system_prompt`. -/
def factCheckerSystemPrompt : String :=
  "You are a meticulous fact-checker and critical thinker.\nYour job is to review research findings and identify:\n1. Claims that need verification\n2. Potential inaccuracies or misleading statements\n3. Missing citations or sources\n4. Logical inconsistencies\n5. Biases or one-sided perspectives\n\nBe thorough but fair. Rate the overall accuracy and provide specific feedback.\n\nRating scale:\n- HIGH: Well-researched, accurate, balanced\n- MEDIUM: Generally accurate but has some gaps or minor issues\n- LOW: Contains significant inaccuracies or misleading information\n- UNVERIFIABLE: Claims cannot be verified or lack sufficient evidence"

/-- `WriterAgent.system_prompt`. -/
def writerSystemPrompt : String :=
  "You are an expert content writer skilled at transforming research into engaging, clear, and accurate content.\n\nYour writing should be:\n1. Clear and accessible to the target audience\n2. Well-structured with logical flow\n3. Engaging and interesting\n4. Factually accurate based on provided research\n5. Free of jargon unless necessary (with explanations when used)\n\nYou can write in various formats: articles, blog posts, reports, summaries, etc.\nAlways maintain accuracy while making the content compelling."

/-- The prompt of `ResearcherAgent.research`: the human template with
`context or "General overview needed"` substituted (Python `or` treats the
empty string as absent). -/
def researchReq (topic context : String) : GenReq :=
  { system := researcherSystemPrompt
    human := "Research the following topic: " ++ topic ++
      "\n\nAdditional context: " ++
      (if context = "" then "General overview needed" else context) ++
      "\n\nProvide a comprehensive research report." }

/-- The prompt of `FactCheckerAgent.fact_check`. -/
def factCheckReq (research_content topic : String) : GenReq :=
  { system := factCheckerSystemPrompt
    human := "Topic: " ++ topic ++ "\n\nResearch Content to Fact-Check:\n" ++
      research_content ++
      "\n\nProvide a detailed fact-check report including:\n1. Overall accuracy rating\n2. Specific claims that need verification\n3. Identified issues or concerns\n4. Recommendations for improvement\n5. Claims that are accurate and well-supported" }

/-- The prompt of `FactCheckerAgent.cross_check`. -/
def crossCheckReq (research_a research_b topic : String) : GenReq :=
  { system := factCheckerSystemPrompt
    human := "Topic: " ++ topic ++ "\n\nResearch Source A:\n" ++ research_a ++
      "\n\nResearch Source B:\n" ++ research_b ++
      "\n\nCross-check these two research sources and identify:\n1. Points of agreement\n2. Contradictions or inconsistencies\n3. Complementary information\n4. Which source appears more reliable and why\n5. Recommendations for reconciling differences" }

/-- `length_guidance.get(target_length, length_guidance["medium"])` in
`WriterAgent.write_article`. -/
def lengthGuidance (target_length : String) : String :=
  if target_length = "short" then "500-800 words, focus on key points"
  else if target_length = "medium" then "1000-1500 words, comprehensive coverage"
  else if target_length = "long" then "2000+ words, in-depth analysis"
  else "1000-1500 words, comprehensive coverage"

/-- The prompt of `WriterAgent.write_article`. -/
def writeArticleReq (topic research_content fact_check_report style target_length : String) : GenReq :=
  { system := writerSystemPrompt
    human := "Write a " ++ style ++ " article on the topic: " ++ topic ++
      "\n\nResearch Content:\n" ++ research_content ++
      "\n\nFact-Check Report:\n" ++ fact_check_report ++
      "\n\nTarget Length: " ++ lengthGuidance target_length ++
      "\n\nInstructions:\n- Use the research as your source material\n- Address any concerns raised in the fact-check report\n- Write in a " ++
      style ++
      " style\n- Include a compelling introduction and conclusion\n- Use headings and subheadings for organization\n- Only include verified information" }

/-- The prompt of `WriterAgent.write_summary`. -/
def writeSummaryReq (topic research_content : String) (max_paragraphs : Nat) : GenReq :=
  { system := writerSystemPrompt
    human := "Create a concise summary of the following research on: " ++ topic ++
      "\n\nResearch Content:\n" ++ research_content ++
      "\n\nWrite a clear, accurate summary in " ++ toString max_paragraphs ++
      " paragraphs or less.\nCapture the most important points and key takeaways." }

/-- `perspectives_text` in `WriterAgent.write_comparison`: enumerated
perspective blocks joined by blank lines (insertion order preserved). -/
def perspectivesText (perspectives : List (String × String)) : String :=
  String.intercalate "\n\n"
    (perspectives.enum.map fun ic =>
      "Perspective " ++ toString (ic.1 + 1) ++ " (" ++ ic.2.1 ++ "):\n" ++ ic.2.2)

/-- The prompt of `WriterAgent.write_comparison`; the cross-check block is
included only when the report is present and non-empty (Python truthiness of
`cross_check_report`). -/
def writeComparisonReq (topic : String) (perspectives : List (String × String))
    (cross_check_report : Option String) : GenReq :=
  { system := writerSystemPrompt
    human := "Write a comparison analysis on: " ++ topic ++
      "\n\nDifferent Perspectives:\n" ++ perspectivesText perspectives ++
      "\n\n" ++
      (match cross_check_report with
       | none => ""
       | some r => if r = "" then "" else "\nCross-Check Analysis:\n" ++ r) ++
      "\n\nCreate a balanced comparison that:\n1. Presents each perspective fairly\n2. Identifies key differences and similarities\n3. Analyzes the strengths and weaknesses of each view\n4. Provides an objective synthesis" }

/- ## Agent result construction (the returned dicts) -/

/-- The dict `ResearcherAgent.research` returns around the generated text. -/
def mkResearch (topic text : String) : ResearchResult :=
  { agent := "Researcher", topic := topic, findings := text, needs_fact_checking := true }

/-- The dict `FactCheckerAgent.fact_check` returns. -/
def mkFactCheck (topic text : String) : FactCheckResult :=
  { agent := "FactChecker", topic := topic, fact_check_report := text, status := "reviewed" }

/-- The dict `FactCheckerAgent.cross_check` returns. -/
def mkCrossCheck (topic text : String) : CrossCheckResult :=
  { agent := "FactChecker", topic := topic, cross_check_report := text }

/-- The dict `WriterAgent.write_article` returns. -/
def mkArticle (topic style text : String) : ArticleResult :=
  { agent := "Writer", topic := topic, style := style, content_type := "article", content := text }

/-- The dict `WriterAgent.write_summary` returns. -/
def mkSummary (topic text : String) : SummaryResult :=
  { agent := "Writer", topic := topic, content_type := "summary", content := text }

/-- The dict `WriterAgent.write_comparison` returns. -/
def mkComparison (topic text : String) : ComparisonResult :=
  { agent := "Writer", topic := topic, content_type := "comparison", content := text }

/- ## Orchestrator state and step log -/

/-- One agent-method invocation issued by the orchestrator, with the
arguments it received (recorded for observability; each such invocation
performs exactly one generation call). -/
inductive AgentCall where
  | research (topic context : String)
  | factCheck (research_content topic : String)
  | crossCheck (research_a research_b topic : String)
  | writeArticle (topic research_content fact_check_report style target_length : String)
  | writeSummary (topic research_content : String) (max_paragraphs : Nat)
  | writeComparison (topic : String) (perspectives : List (String × String))
      (cross_check_report : Option String)
deriving DecidableEq, Repr

/-- The `data` payload of a step log entry (the agent result dict logged). -/
inductive StepData where
  | research (r : ResearchResult)
  | factCheck (r : FactCheckResult)
  | crossCheck (r : CrossCheckResult)
  | article (r : ArticleResult)
  | comparison (r : ComparisonResult)
deriving DecidableEq, Repr

/-- One entry of `self.workflow_history`.  `timestamp` models
`datetime.now().isoformat()` as a monotone logical clock (the number of
entries logged before this one on the same instance). -/
structure StepLogEntry where
  timestamp : Nat
  step : String
  agent : String
  data : StepData
deriving DecidableEq, Repr

/-- The mutable state of one `MultiAgentOrchestrator` instance:
`history` is `self.workflow_history`; `calls` counts the generation calls
issued so far (it indexes the oracle); `trace` records the agent-method
invocations issued so far. -/
structure OrchState where
  history : List StepLogEntry
  calls : Nat
  trace : List AgentCall
deriving DecidableEq, Repr

/-- The state of a freshly constructed orchestrator: empty history, no
calls made. -/
def initState : OrchState := { history := [], calls := 0, trace := [] }

/-- `MultiAgentOrchestrator.log_step`: append one entry to
`self.workflow_history`. -/
def log_step (st : OrchState) (step_name agent : String) (data : StepData) : OrchState :=
  { st with history := st.history ++ [⟨st.history.length, step_name, agent, data⟩] }

/-- Issue one generation call: consult the oracle at the current call index
and record the agent-method invocation. -/
def callGen (gen : GenCap) (st : OrchState) (c : AgentCall) (req : GenReq) :
    Except GenErr String × OrchState :=
  (gen st.calls req, { st with calls := st.calls + 1, trace := st.trace ++ [c] })

/-- `ResearcherAgent.research` as invoked by the orchestrator. -/
def researchCall (gen : GenCap) (st : OrchState) (topic context : String) :
    Except GenErr ResearchResult × OrchState :=
  let p := callGen gen st (.research topic context) (researchReq topic context)
  (p.1.map (mkResearch topic), p.2)

/-- `FactCheckerAgent.fact_check` as invoked by the orchestrator. -/
def factCheckCall (gen : GenCap) (st : OrchState) (research_content topic : String) :
    Except GenErr FactCheckResult × OrchState :=
  let p := callGen gen st (.factCheck research_content topic) (factCheckReq research_content topic)
  (p.1.map (mkFactCheck topic), p.2)

/-- `FactCheckerAgent.cross_check` as invoked by the orchestrator. -/
def crossCheckCall (gen : GenCap) (st : OrchState) (research_a research_b topic : String) :
    Except GenErr CrossCheckResult × OrchState :=
  let p := callGen gen st (.crossCheck research_a research_b topic)
    (crossCheckReq research_a research_b topic)
  (p.1.map (mkCrossCheck topic), p.2)

/-- `WriterAgent.write_article` as invoked by the orchestrator. -/
def writeArticleCall (gen : GenCap) (st : OrchState)
    (topic research_content fact_check_report style target_length : String) :
    Except GenErr ArticleResult × OrchState :=
  let p := callGen gen st
    (.writeArticle topic research_content fact_check_report style target_length)
    (writeArticleReq topic research_content fact_check_report style target_length)
  (p.1.map (mkArticle topic style), p.2)

/-- `WriterAgent.write_summary` as invoked by the orchestrator. -/
def writeSummaryCall (gen : GenCap) (st : OrchState)
    (topic research_content : String) (max_paragraphs : Nat) :
    Except GenErr SummaryResult × OrchState :=
  let p := callGen gen st (.writeSummary topic research_content max_paragraphs)
    (writeSummaryReq topic research_content max_paragraphs)
  (p.1.map (mkSummary topic), p.2)

/-- `WriterAgent.write_comparison` as invoked by the orchestrator. -/
def writeComparisonCall (gen : GenCap) (st : OrchState) (topic : String)
    (perspectives : List (String × String)) (cross_check_report : Option String) :
    Except GenErr ComparisonResult × OrchState :=
  let p := callGen gen st (.writeComparison topic perspectives cross_check_report)
    (writeComparisonReq topic perspectives cross_check_report)
  (p.1.map (mkComparison topic), p.2)

/- ## Python dict semantics for `research_results` -/

/-- Python dict assignment `d[k] = v`: overwrite in place if the key exists
(keeping its original position), else append. -/
def dictInsert (d : List (String × String)) (k v : String) : List (String × String) :=
  if d.any (fun p => p.1 = k) then d.map (fun p => if p.1 = k then (k, v) else p)
  else d ++ [(k, v)]

/-- Python dict lookup `d[k]` (as an option; `none` is a `KeyError`). -/
def dictGet? (d : List (String × String)) (k : String) : Option String :=
  (d.find? (fun p => p.1 = k)).map (fun p => p.2)

/- ## Workflow records (the dicts the pipelines return)

In the source each returned dict also carries `"workflow_history":
self.workflow_history`, a reference to the instance's live list — not a
snapshot.  We model that field by dereference: at any observation point the
record's history field shows the current `OrchState.history` of the
instance (see `recordHistoryView`). -/

/-- The dict returned by `simple_workflow` (minus the live
`workflow_history` reference, modelled separately). -/
structure SimpleRecord where
  workflow_type : String
  topic : String
  research : ResearchResult
  fact_check : FactCheckResult
  article : ArticleResult
deriving DecidableEq, Repr

/-- The dict returned by `iterative_workflow`. -/
structure IterativeRecord where
  workflow_type : String
  topic : String
  initial_research : ResearchResult
  initial_fact_check : FactCheckResult
  refined_research : ResearchResult
  final_fact_check : FactCheckResult
  article : ArticleResult
deriving DecidableEq, Repr

/-- The dict returned by `comparative_workflow`. -/
structure ComparativeRecord where
  workflow_type : String
  topic : String
  perspectives : List String
  research_results : List (String × String)
  cross_check : Option CrossCheckResult
  overall_fact_check : FactCheckResult
  comparison : ComparisonResult
deriving DecidableEq, Repr

/-- What the `workflow_history` field of any returned record shows when the
instance is in state `st`: the live list itself. -/
def recordHistoryView (st : OrchState) : List StepLogEntry := st.history

/- ## The three pipelines -/

/-- `MultiAgentOrchestrator.simple_workflow`.  Returns the record (or the
propagated failure) together with the instance state at return / raise
time. -/
def simple_workflow (gen : GenCap) (st : OrchState)
    (topic context writing_style content_length : String) :
    Except RunError SimpleRecord × OrchState :=
  let p1 := researchCall gen st topic context
  match p1.1 with
  | .error e => (.error (.genFailure e), p1.2)
  | .ok research_result =>
    let st1 := log_step p1.2 "research" "Researcher" (.research research_result)
    let p2 := factCheckCall gen st1 research_result.findings topic
    match p2.1 with
    | .error e => (.error (.genFailure e), p2.2)
    | .ok fact_check_result =>
      let st2 := log_step p2.2 "fact_check" "FactChecker" (.factCheck fact_check_result)
      let p3 := writeArticleCall gen st2 topic research_result.findings
        fact_check_result.fact_check_report writing_style content_length
      match p3.1 with
      | .error e => (.error (.genFailure e), p3.2)
      | .ok article_result =>
        let st3 := log_step p3.2 "write" "Writer" (.article article_result)
        (.ok { workflow_type := "simple", topic := topic, research := research_result,
               fact_check := fact_check_result, article := article_result }, st3)

/-- `MultiAgentOrchestrator.iterative_workflow`. -/
def iterative_workflow (gen : GenCap) (st : OrchState)
    (topic initial_context writing_style content_length : String) :
    Except RunError IterativeRecord × OrchState :=
  let p1 := researchCall gen st topic initial_context
  match p1.1 with
  | .error e => (.error (.genFailure e), p1.2)
  | .ok initial_research =>
    let st1 := log_step p1.2 "initial_research" "Researcher" (.research initial_research)
    let p2 := factCheckCall gen st1 initial_research.findings topic
    match p2.1 with
    | .error e => (.error (.genFailure e), p2.2)
    | .ok fact_check_result =>
      let st2 := log_step p2.2 "fact_check" "FactChecker" (.factCheck fact_check_result)
      let refined_context :=
        "Previous research was fact-checked. Address these points:\n" ++
          fact_check_result.fact_check_report
      let p3 := researchCall gen st2 topic refined_context
      match p3.1 with
      | .error e => (.error (.genFailure e), p3.2)
      | .ok refined_research =>
        let st3 := log_step p3.2 "refined_research" "Researcher" (.research refined_research)
        let p4 := factCheckCall gen st3 refined_research.findings topic
        match p4.1 with
        | .error e => (.error (.genFailure e), p4.2)
        | .ok final_fact_check =>
          let st4 := log_step p4.2 "final_fact_check" "FactChecker" (.factCheck final_fact_check)
          let p5 := writeArticleCall gen st4 topic refined_research.findings
            final_fact_check.fact_check_report writing_style content_length
          match p5.1 with
          | .error e => (.error (.genFailure e), p5.2)
          | .ok article_result =>
            let st5 := log_step p5.2 "write" "Writer" (.article article_result)
            (.ok { workflow_type := "iterative", topic := topic,
                   initial_research := initial_research,
                   initial_fact_check := fact_check_result,
                   refined_research := refined_research,
                   final_fact_check := final_fact_check,
                   article := article_result }, st5)

/-- The per-perspective research loop of `comparative_workflow`
(`for i, perspective in enumerate(perspectives, 1)`), accumulating the
`research_results` dict. -/
def researchLoop (gen : GenCap) (topic : String) :
    List String → Nat → List (String × String) → OrchState →
    Except GenErr (List (String × String)) × OrchState
  | [], _, acc, st => (.ok acc, st)
  | p :: ps, i, acc, st =>
    let pr := researchCall gen st topic ("Focus on this perspective: " ++ p)
    match pr.1 with
    | .error e => (.error e, pr.2)
    | .ok result =>
      let acc2 := dictInsert acc p result.findings
      let st2 := log_step pr.2 ("research_perspective_" ++ toString i) "Researcher"
        (.research result)
      researchLoop gen topic ps (i + 1) acc2 st2

/-- `combined_research` in `comparative_workflow`: all perspective blocks
joined by separators. -/
def combinedResearch (research_results : List (String × String)) : String :=
  String.intercalate "\n\n---\n\n"
    (research_results.map fun pc => pc.1 ++ ":\n" ++ pc.2)

/-- The tail of `comparative_workflow` after the optional cross-check: the
overall fact-check, the comparison write, and the returned dict. -/
def comparativeTail (gen : GenCap) (st : OrchState) (topic : String)
    (perspectives : List String) (research_results : List (String × String))
    (cross_check_result : Option CrossCheckResult) :
    Except RunError ComparativeRecord × OrchState :=
  let pf := factCheckCall gen st (combinedResearch research_results) topic
  match pf.1 with
  | .error e => (.error (.genFailure e), pf.2)
  | .ok overall_fact_check =>
    let st1 := log_step pf.2 "overall_fact_check" "FactChecker" (.factCheck overall_fact_check)
    let pw := writeComparisonCall gen st1 topic research_results
      (cross_check_result.map (fun r => r.cross_check_report))
    match pw.1 with
    | .error e => (.error (.genFailure e), pw.2)
    | .ok comparison_result =>
      let st2 := log_step pw.2 "write_comparison" "Writer" (.comparison comparison_result)
      (.ok { workflow_type := "comparative", topic := topic,
             perspectives := perspectives, research_results := research_results,
             cross_check := cross_check_result,
             overall_fact_check := overall_fact_check,
             comparison := comparison_result }, st2)

/-- `MultiAgentOrchestrator.comparative_workflow`.  When
`len(perspectives) >= 2`, the source indexes
`perspectives_list = list(research_results.keys())` at positions 0 and 1
and looks the two keys up in the dict; an out-of-range index is a Python
`IndexError` (raised before `cross_check` is invoked). -/
def comparative_workflow (gen : GenCap) (st : OrchState) (topic : String)
    (perspectives : List String) (_writing_style : String) :
    Except RunError ComparativeRecord × OrchState :=
  let lp := researchLoop gen topic perspectives 1 [] st
  match lp.1 with
  | .error e => (.error (.genFailure e), lp.2)
  | .ok research_results =>
    if perspectives.length ≥ 2 then
      let keys := research_results.map (fun p => p.1)
      match keys.get? 0, keys.get? 1 with
      | some k0, some k1 =>
        match dictGet? research_results k0, dictGet? research_results k1 with
        | some f0, some f1 =>
          let pc := crossCheckCall gen lp.2 f0 f1 topic
          match pc.1 with
          | .error e => (.error (.genFailure e), pc.2)
          | .ok cross_check_result =>
            let st1 := log_step pc.2 "cross_check" "FactChecker" (.crossCheck cross_check_result)
            comparativeTail gen st1 topic perspectives research_results (some cross_check_result)
        | _, _ => (.error .keyMissing, lp.2)
      | _, _ => (.error .indexOut, lp.2)
    else
      comparativeTail gen lp.2 topic perspectives research_results none

/- ## get_summary and persistence -/

/-- A workflow record passed to `get_summary` / `save_workflow_results`
(one of the three pipeline result dicts). -/
inductive WorkflowResult where
  | simple (r : SimpleRecord)
  | iterative (r : IterativeRecord)
  | comparative (r : ComparativeRecord)
deriving DecidableEq, Repr

/-- `workflow_result["topic"]`. -/
def WorkflowResult.topic : WorkflowResult → String
  | .simple r => r.topic
  | .iterative r => r.topic
  | .comparative r => r.topic

/-- The primary textual artifact `get_summary` extracts:
`workflow_result["article"]["content"]` when the dict has an `"article"`
key (Simple and Iterative records), else
`workflow_result["comparison"]["content"]` (Comparative records). -/
def primaryContent : WorkflowResult → String
  | .simple r => r.article.content
  | .iterative r => r.article.content
  | .comparative r => r.comparison.content

/-- `MultiAgentOrchestrator.get_summary`: one `Writer.write_summary` call
bounded to 3 paragraphs on the primary artifact; note the source performs
no `log_step` here. -/
def get_summary (gen : GenCap) (st : OrchState) (workflow_result : WorkflowResult) :
    Except RunError String × OrchState :=
  let p := writeSummaryCall gen st workflow_result.topic (primaryContent workflow_result) 3
  match p.1 with
  | .error e => (.error (.genFailure e), p.2)
  | .ok summary_result => (.ok summary_result.content, p.2)

/- ## Serialization (`save_workflow_results`, `json.dump(..., indent=2,
ensure_ascii=False)`)

The record dict is rendered to JSON text; field order follows the dict
insertion order of the source.  Whitespace is rendered compactly (one
space after separators); `ensure_ascii=False` keeps non-ASCII characters
as-is, and the usual JSON escapes are applied to strings. -/

/-- JSON string escaping (quote, backslash and common control characters). -/
def jsonEscape (s : String) : String :=
  s.foldl (fun acc c =>
    acc ++ (if c = '"' then "\\\"" else if c = '\\' then "\\\\"
      else if c = '\n' then "\\n" else if c = '\t' then "\\t"
      else if c = '\r' then "\\r" else String.singleton c)) ""

/-- A JSON string literal. -/
def jsonStr (s : String) : String := "\"" ++ jsonEscape s ++ "\""

/-- A JSON object from already-rendered `key, value` pairs. -/
def jsonObj (fields : List (String × String)) : String :=
  "\x7b" ++ String.intercalate ", " (fields.map fun kv => jsonStr kv.1 ++ ": " ++ kv.2) ++ "\x7d"

/-- A JSON array from already-rendered elements. -/
def jsonArr (xs : List String) : String :=
  "[" ++ String.intercalate ", " xs ++ "]"

/-- A JSON boolean. -/
def jsonBool (b : Bool) : String := if b then "true" else "false"

/-- JSON text of a `ResearcherAgent.research` result dict. -/
def researchResultJson (r : ResearchResult) : String :=
  jsonObj [("agent", jsonStr r.agent), ("topic", jsonStr r.topic),
    ("findings", jsonStr r.findings),
    ("needs_fact_checking", jsonBool r.needs_fact_checking)]

/-- JSON text of a `fact_check` result dict. -/
def factCheckResultJson (r : FactCheckResult) : String :=
  jsonObj [("agent", jsonStr r.agent), ("topic", jsonStr r.topic),
    ("fact_check_report", jsonStr r.fact_check_report), ("status", jsonStr r.status)]

/-- JSON text of a `cross_check` result dict. -/
def crossCheckResultJson (r : CrossCheckResult) : String :=
  jsonObj [("agent", jsonStr r.agent), ("topic", jsonStr r.topic),
    ("cross_check_report", jsonStr r.cross_check_report)]

/-- JSON text of a `write_article` result dict. -/
def articleResultJson (r : ArticleResult) : String :=
  jsonObj [("agent", jsonStr r.agent), ("topic", jsonStr r.topic),
    ("style", jsonStr r.style), ("content_type", jsonStr r.content_type),
    ("content", jsonStr r.content)]

/-- JSON text of a `write_comparison` result dict. -/
def comparisonResultJson (r : ComparisonResult) : String :=
  jsonObj [("agent", jsonStr r.agent), ("topic", jsonStr r.topic),
    ("content_type", jsonStr r.content_type), ("content", jsonStr r.content)]

/-- JSON text of a step log entry's `data` payload. -/
def stepDataJson : StepData → String
  | .research r => researchResultJson r
  | .factCheck r => factCheckResultJson r
  | .crossCheck r => crossCheckResultJson r
  | .article r => articleResultJson r
  | .comparison r => comparisonResultJson r

/-- JSON text of one step log entry. -/
def stepLogEntryJson (e : StepLogEntry) : String :=
  jsonObj [("timestamp", toString e.timestamp), ("step", jsonStr e.step),
    ("agent", jsonStr e.agent), ("data", stepDataJson e.data)]

/-- JSON text of the step log. -/
def historyJson (hist : List StepLogEntry) : String :=
  jsonArr (hist.map stepLogEntryJson)

/-- JSON text of a full workflow result dict, given the content `hist` of
the live `workflow_history` list at serialization time. -/
def workflowResultJson (wr : WorkflowResult) (hist : List StepLogEntry) : String :=
  match wr with
  | .simple r =>
    jsonObj [("workflow_type", jsonStr r.workflow_type), ("topic", jsonStr r.topic),
      ("research", researchResultJson r.research),
      ("fact_check", factCheckResultJson r.fact_check),
      ("article", articleResultJson r.article),
      ("workflow_history", historyJson hist)]
  | .iterative r =>
    jsonObj [("workflow_type", jsonStr r.workflow_type), ("topic", jsonStr r.topic),
      ("initial_research", researchResultJson r.initial_research),
      ("initial_fact_check", factCheckResultJson r.initial_fact_check),
      ("refined_research", researchResultJson r.refined_research),
      ("final_fact_check", factCheckResultJson r.final_fact_check),
      ("article", articleResultJson r.article),
      ("workflow_history", historyJson hist)]
  | .comparative r =>
    jsonObj [("workflow_type", jsonStr r.workflow_type), ("topic", jsonStr r.topic),
      ("perspectives", jsonArr (r.perspectives.map jsonStr)),
      ("research_results", jsonObj (r.research_results.map fun pc => (pc.1, jsonStr pc.2))),
      ("cross_check",
        match r.cross_check with
        | none => "null"
        | some cc => crossCheckResultJson cc),
      ("overall_fact_check", factCheckResultJson r.overall_fact_check),
      ("comparison", comparisonResultJson r.comparison),
      ("workflow_history", historyJson hist)]

/-- `MultiAgentOrchestrator.save_workflow_results`: write the serialized
record, as-is, to the named sink.  Returns the sink name and the bytes
written. -/
def save_workflow_results (workflow_result : WorkflowResult)
    (hist : List StepLogEntry) (filename : String) : String × String :=
  (filename, workflowResultJson workflow_result hist)

/- ## Projection lemmas -/

@[simp] lemma log_step_history (st : OrchState) (n a : String) (d : StepData) :
    (log_step st n a d).history = st.history ++ [⟨st.history.length, n, a, d⟩] := rfl

@[simp] lemma log_step_calls (st : OrchState) (n a : String) (d : StepData) :
    (log_step st n a d).calls = st.calls := rfl

@[simp] lemma log_step_trace (st : OrchState) (n a : String) (d : StepData) :
    (log_step st n a d).trace = st.trace := rfl

@[simp] lemma mkResearch_topic (t s : String) : (mkResearch t s).topic = t := rfl

@[simp] lemma mkResearch_findings (t s : String) : (mkResearch t s).findings = s := rfl

@[simp] lemma mkResearch_flag (t s : String) : (mkResearch t s).needs_fact_checking = true := rfl

@[simp] lemma mkFactCheck_topic (t s : String) : (mkFactCheck t s).topic = t := rfl

@[simp] lemma mkFactCheck_report (t s : String) : (mkFactCheck t s).fact_check_report = s := rfl

@[simp] lemma mkCrossCheck_topic (t s : String) : (mkCrossCheck t s).topic = t := rfl

@[simp] lemma mkCrossCheck_report (t s : String) : (mkCrossCheck t s).cross_check_report = s := rfl

@[simp] lemma mkArticle_topic (t w s : String) : (mkArticle t w s).topic = t := rfl

@[simp] lemma mkArticle_content (t w s : String) : (mkArticle t w s).content = s := rfl

@[simp] lemma mkComparison_topic (t s : String) : (mkComparison t s).topic = t := rfl

@[simp] lemma mkSummary_content (t s : String) : (mkSummary t s).content = s := rfl

/- ## Characterization lemmas: simple workflow -/

lemma simple_ok_eq (gen : GenCap) (st : OrchState) (t c ws cl s1 s2 s3 : String)
    (h1 : gen st.calls (researchReq t c) = .ok s1)
    (h2 : gen (st.calls + 1) (factCheckReq s1 t) = .ok s2)
    (h3 : gen (st.calls + 2) (writeArticleReq t s1 s2 ws cl) = .ok s3) :
    simple_workflow gen st t c ws cl =
      (.ok { workflow_type := "simple", topic := t, research := mkResearch t s1,
             fact_check := mkFactCheck t s2, article := mkArticle t ws s3 },
       { history := st.history ++
           [⟨st.history.length, "research", "Researcher", .research (mkResearch t s1)⟩,
            ⟨st.history.length + 1, "fact_check", "FactChecker", .factCheck (mkFactCheck t s2)⟩,
            ⟨st.history.length + 2, "write", "Writer", .article (mkArticle t ws s3)⟩],
         calls := st.calls + 3,
         trace := st.trace ++ [.research t c, .factCheck s1 t, .writeArticle t s1 s2 ws cl] }) := by
  simp [simple_workflow, researchCall, factCheckCall, writeArticleCall, callGen, log_step,
    h1, h2, h3, Except.map, mkResearch, mkFactCheck]

lemma simple_ok_gen (gen : GenCap) (st : OrchState) (t c ws cl : String) (rec : SimpleRecord)
    (h : (simple_workflow gen st t c ws cl).1 = .ok rec) :
    ∃ s1 s2 s3, gen st.calls (researchReq t c) = .ok s1 ∧
      gen (st.calls + 1) (factCheckReq s1 t) = .ok s2 ∧
      gen (st.calls + 2) (writeArticleReq t s1 s2 ws cl) = .ok s3 := by
  rcases hg1 : gen st.calls (researchReq t c) with e1 | s1
  · simp [simple_workflow, researchCall, callGen, hg1, Except.map] at h
  · rcases hg2 : gen (st.calls + 1) (factCheckReq s1 t) with e2 | s2
    · simp [simple_workflow, researchCall, factCheckCall, callGen, log_step,
        hg1, hg2, Except.map, mkResearch] at h
    · rcases hg3 : gen (st.calls + 2) (writeArticleReq t s1 s2 ws cl) with e3 | s3
      · simp [simple_workflow, researchCall, factCheckCall, writeArticleCall, callGen, log_step,
          hg1, hg2, hg3, Except.map, mkResearch, mkFactCheck] at h
      · exact ⟨s1, s2, s3, rfl, hg2, hg3⟩

lemma simple_err (gen : GenCap) (st : OrchState) (t c ws cl : String) (err : RunError)
    (h : (simple_workflow gen st t c ws cl).1 = .error err) :
    ∃ e, err = .genFailure e ∧
      ((gen st.calls (researchReq t c) = .error e ∧
        (simple_workflow gen st t c ws cl).2.history = st.history ∧
        (simple_workflow gen st t c ws cl).2.calls = st.calls + 1) ∨
       (∃ s1, gen st.calls (researchReq t c) = .ok s1 ∧
         gen (st.calls + 1) (factCheckReq s1 t) = .error e ∧
         (simple_workflow gen st t c ws cl).2.history = st.history ++
           [⟨st.history.length, "research", "Researcher", .research (mkResearch t s1)⟩] ∧
         (simple_workflow gen st t c ws cl).2.calls = st.calls + 2) ∨
       (∃ s1 s2, gen st.calls (researchReq t c) = .ok s1 ∧
         gen (st.calls + 1) (factCheckReq s1 t) = .ok s2 ∧
         gen (st.calls + 2) (writeArticleReq t s1 s2 ws cl) = .error e ∧
         (simple_workflow gen st t c ws cl).2.history = st.history ++
           [⟨st.history.length, "research", "Researcher", .research (mkResearch t s1)⟩,
            ⟨st.history.length + 1, "fact_check", "FactChecker", .factCheck (mkFactCheck t s2)⟩] ∧
         (simple_workflow gen st t c ws cl).2.calls = st.calls + 3)) := by
  rcases hg1 : gen st.calls (researchReq t c) with e1 | s1
  · refine ⟨e1, ?_, .inl ⟨rfl, ?_, ?_⟩⟩ <;>
      simp_all [simple_workflow, researchCall, callGen, Except.map]
  · rcases hg2 : gen (st.calls + 1) (factCheckReq s1 t) with e2 | s2
    · refine ⟨e2, ?_, .inr (.inl ⟨s1, rfl, hg2, ?_, ?_⟩)⟩ <;>
        simp_all [simple_workflow, researchCall, factCheckCall, callGen, log_step,
          Except.map, mkResearch, mkFactCheck]
    · rcases hg3 : gen (st.calls + 2) (writeArticleReq t s1 s2 ws cl) with e3 | s3
      · refine ⟨e3, ?_, .inr (.inr ⟨s1, s2, rfl, hg2, hg3, ?_, ?_⟩)⟩ <;>
          simp_all [simple_workflow, researchCall, factCheckCall, writeArticleCall, callGen,
            log_step, Except.map, mkResearch, mkFactCheck]
      · exfalso
        simp [simple_workflow, researchCall, factCheckCall, writeArticleCall, callGen,
          log_step, hg1, hg2, hg3, Except.map, mkResearch, mkFactCheck] at h

/- ## Characterization lemmas: iterative workflow -/

/-- The `refined_context` built in `iterative_workflow` from the first
fact-check report. -/
def refinedContext (report : String) : String :=
  "Previous research was fact-checked. Address these points:\n" ++ report

lemma iterative_ok_eq (gen : GenCap) (st : OrchState) (t ic ws cl s1 s2 s3 s4 s5 : String)
    (h1 : gen st.calls (researchReq t ic) = .ok s1)
    (h2 : gen (st.calls + 1) (factCheckReq s1 t) = .ok s2)
    (h3 : gen (st.calls + 2) (researchReq t ("Previous research was fact-checked. Address these points:\n" ++ s2)) = .ok s3)
    (h4 : gen (st.calls + 3) (factCheckReq s3 t) = .ok s4)
    (h5 : gen (st.calls + 4) (writeArticleReq t s3 s4 ws cl) = .ok s5) :
    iterative_workflow gen st t ic ws cl =
      (.ok { workflow_type := "iterative", topic := t,
             initial_research := mkResearch t s1, initial_fact_check := mkFactCheck t s2,
             refined_research := mkResearch t s3, final_fact_check := mkFactCheck t s4,
             article := mkArticle t ws s5 },
       { history := st.history ++
           [⟨st.history.length, "initial_research", "Researcher", .research (mkResearch t s1)⟩,
            ⟨st.history.length + 1, "fact_check", "FactChecker", .factCheck (mkFactCheck t s2)⟩,
            ⟨st.history.length + 2, "refined_research", "Researcher", .research (mkResearch t s3)⟩,
            ⟨st.history.length + 3, "final_fact_check", "FactChecker", .factCheck (mkFactCheck t s4)⟩,
            ⟨st.history.length + 4, "write", "Writer", .article (mkArticle t ws s5)⟩],
         calls := st.calls + 5,
         trace := st.trace ++ [.research t ic, .factCheck s1 t,
           .research t ("Previous research was fact-checked. Address these points:\n" ++ s2), .factCheck s3 t,
           .writeArticle t s3 s4 ws cl] }) := by
  simp [iterative_workflow, researchCall, factCheckCall, writeArticleCall, callGen, log_step,
    h1, h2, h3, h4, h5, Except.map, mkResearch, mkFactCheck]

lemma iterative_ok_gen (gen : GenCap) (st : OrchState) (t ic ws cl : String)
    (rec : IterativeRecord)
    (h : (iterative_workflow gen st t ic ws cl).1 = .ok rec) :
    ∃ s1 s2 s3 s4 s5, gen st.calls (researchReq t ic) = .ok s1 ∧
      gen (st.calls + 1) (factCheckReq s1 t) = .ok s2 ∧
      gen (st.calls + 2) (researchReq t ("Previous research was fact-checked. Address these points:\n" ++ s2)) = .ok s3 ∧
      gen (st.calls + 3) (factCheckReq s3 t) = .ok s4 ∧
      gen (st.calls + 4) (writeArticleReq t s3 s4 ws cl) = .ok s5 := by
  rcases hg1 : gen st.calls (researchReq t ic) with e1 | s1
  · simp [iterative_workflow, researchCall, callGen, hg1, Except.map] at h
  · rcases hg2 : gen (st.calls + 1) (factCheckReq s1 t) with e2 | s2
    · simp [iterative_workflow, researchCall, factCheckCall, callGen, log_step,
        hg1, hg2, Except.map, mkResearch] at h
    · rcases hg3 : gen (st.calls + 2) (researchReq t ("Previous research was fact-checked. Address these points:\n" ++ s2)) with e3 | s3
      · simp [iterative_workflow, researchCall, factCheckCall, callGen, log_step,
          hg1, hg2, hg3, Except.map, mkResearch, mkFactCheck] at h
      · rcases hg4 : gen (st.calls + 3) (factCheckReq s3 t) with e4 | s4
        · simp [iterative_workflow, researchCall, factCheckCall, callGen, log_step,
            hg1, hg2, hg3, hg4, Except.map, mkResearch, mkFactCheck] at h
        · rcases hg5 : gen (st.calls + 4) (writeArticleReq t s3 s4 ws cl) with e5 | s5
          · simp [iterative_workflow, researchCall, factCheckCall, writeArticleCall, callGen,
              log_step, hg1, hg2, hg3, hg4, hg5, Except.map, mkResearch, mkFactCheck] at h
          · exact ⟨s1, s2, s3, s4, s5, rfl, hg2, hg3, hg4, hg5⟩

lemma iterative_err (gen : GenCap) (st : OrchState) (t ic ws cl : String) (err : RunError)
    (h : (iterative_workflow gen st t ic ws cl).1 = .error err) :
    ∃ e, err = .genFailure e ∧
      ∃ tail, (iterative_workflow gen st t ic ws cl).2.history = st.history ++ tail ∧
        (iterative_workflow gen st t ic ws cl).2.calls = st.calls + tail.length + 1 ∧
        tail.length < 5 := by
  rcases hg1 : gen st.calls (researchReq t ic) with e1 | s1
  · refine ⟨e1, ?_, [], ?_, ?_, by simp⟩ <;>
      simp_all [iterative_workflow, researchCall, callGen, Except.map]
  · rcases hg2 : gen (st.calls + 1) (factCheckReq s1 t) with e2 | s2
    · refine ⟨e2, ?_,
        [⟨st.history.length, "initial_research", "Researcher", .research (mkResearch t s1)⟩],
        ?_, ?_, by simp⟩ <;>
      simp_all [iterative_workflow, researchCall, factCheckCall, callGen, log_step,
        Except.map, mkResearch]
    · rcases hg3 : gen (st.calls + 2) (researchReq t ("Previous research was fact-checked. Address these points:\n" ++ s2)) with e3 | s3
      · refine ⟨e3, ?_,
          [⟨st.history.length, "initial_research", "Researcher", .research (mkResearch t s1)⟩,
           ⟨st.history.length + 1, "fact_check", "FactChecker", .factCheck (mkFactCheck t s2)⟩],
          ?_, ?_, by simp⟩ <;>
        simp_all [iterative_workflow, researchCall, factCheckCall, callGen, log_step,
          Except.map, mkResearch, mkFactCheck]
      · rcases hg4 : gen (st.calls + 3) (factCheckReq s3 t) with e4 | s4
        · refine ⟨e4, ?_,
            [⟨st.history.length, "initial_research", "Researcher", .research (mkResearch t s1)⟩,
             ⟨st.history.length + 1, "fact_check", "FactChecker", .factCheck (mkFactCheck t s2)⟩,
             ⟨st.history.length + 2, "refined_research", "Researcher", .research (mkResearch t s3)⟩],
            ?_, ?_, by simp⟩ <;>
          simp_all [iterative_workflow, researchCall, factCheckCall, callGen, log_step,
            Except.map, mkResearch, mkFactCheck]
        · rcases hg5 : gen (st.calls + 4) (writeArticleReq t s3 s4 ws cl) with e5 | s5
          · refine ⟨e5, ?_,
              [⟨st.history.length, "initial_research", "Researcher", .research (mkResearch t s1)⟩,
               ⟨st.history.length + 1, "fact_check", "FactChecker", .factCheck (mkFactCheck t s2)⟩,
               ⟨st.history.length + 2, "refined_research", "Researcher", .research (mkResearch t s3)⟩,
               ⟨st.history.length + 3, "final_fact_check", "FactChecker", .factCheck (mkFactCheck t s4)⟩],
              ?_, ?_, by simp⟩ <;>
            simp_all [iterative_workflow, researchCall, factCheckCall, writeArticleCall, callGen,
              log_step, Except.map, mkResearch, mkFactCheck]
          · exfalso
            simp [iterative_workflow, researchCall, factCheckCall, writeArticleCall, callGen,
              log_step, hg1, hg2, hg3, hg4, hg5, Except.map, mkResearch, mkFactCheck] at h

/- ## Characterization lemmas: comparative workflow -/

/-- Is an agent call a `cross_check` invocation? -/
def isCrossCheckCall : AgentCall → Bool
  | .crossCheck _ _ _ => true
  | _ => false

@[simp] lemma isCrossCheckCall_research (t c : String) :
    isCrossCheckCall (.research t c) = false := rfl

@[simp] lemma isCrossCheckCall_factCheck (a b : String) :
    isCrossCheckCall (.factCheck a b) = false := rfl

@[simp] lemma isCrossCheckCall_crossCheck (a b c : String) :
    isCrossCheckCall (.crossCheck a b c) = true := rfl

@[simp] lemma isCrossCheckCall_writeComparison (t : String)
    (d : List (String × String)) (cc : Option String) :
    isCrossCheckCall (.writeComparison t d cc) = false := rfl

lemma researchLoop_state (gen : GenCap) (topic : String) :
    ∀ (ps : List String) (i : Nat) (acc : List (String × String)) (st : OrchState),
      ∃ htail ttail,
        (researchLoop gen topic ps i acc st).2.history = st.history ++ htail ∧
        (researchLoop gen topic ps i acc st).2.trace = st.trace ++ ttail ∧
        (∀ x ∈ ttail, ∃ tc cc, x = AgentCall.research tc cc) ∧
        ((researchLoop gen topic ps i acc st).1.isOk →
          (researchLoop gen topic ps i acc st).2.calls = st.calls + htail.length ∧
          htail.length = ps.length) ∧
        (¬ (researchLoop gen topic ps i acc st).1.isOk →
          (researchLoop gen topic ps i acc st).2.calls = st.calls + htail.length + 1 ∧
          htail.length < ps.length) := by
  intro ps
  induction ps with
  | nil =>
    intro i acc st
    exact ⟨[], [], by simp [researchLoop], by simp [researchLoop], by simp,
      fun _ => by simp [researchLoop],
      fun hno => absurd (by simp [researchLoop, Except.isOk, Except.toBool]) hno⟩
  | cons p ps ih =>
    intro i acc st
    rcases hg : gen st.calls (researchReq topic ("Focus on this perspective: " ++ p)) with e | s
    · refine ⟨[], [.research topic ("Focus on this perspective: " ++ p)], ?_, ?_, ?_, ?_, ?_⟩ <;>
        simp [researchLoop, researchCall, callGen, hg, Except.map, Except.isOk, Except.toBool]
    · obtain ⟨htail, ttail, hh, ht, hres, hok, herr⟩ :=
        ih (i + 1) (dictInsert acc p s)
          (log_step { st with
              calls := st.calls + 1
              trace := st.trace ++ [.research topic ("Focus on this perspective: " ++ p)] }
            ("research_perspective_" ++ toString i) "Researcher" (.research (mkResearch topic s)))
      have hloop : researchLoop gen topic (p :: ps) i acc st =
          researchLoop gen topic ps (i + 1) (dictInsert acc p s)
            (log_step { st with
                calls := st.calls + 1
                trace := st.trace ++ [.research topic ("Focus on this perspective: " ++ p)] }
              ("research_perspective_" ++ toString i) "Researcher" (.research (mkResearch topic s))) := by
        simp [researchLoop, researchCall, callGen, hg, Except.map, mkResearch]
      refine ⟨⟨st.history.length, "research_perspective_" ++ toString i, "Researcher",
          .research (mkResearch topic s)⟩ :: htail,
        AgentCall.research topic ("Focus on this perspective: " ++ p) :: ttail, ?_, ?_, ?_, ?_, ?_⟩
      · rw [hloop]; simp at hh; simp [hh]
      · rw [hloop]; simp at ht; simp [ht]
      · intro x hx
        rcases List.mem_cons.mp hx with hx | hx
        · exact ⟨topic, "Focus on this perspective: " ++ p, hx⟩
        · exact hres x hx
      · intro hisok
        rw [hloop] at hisok ⊢
        obtain ⟨hc, hl⟩ := hok hisok
        constructor
        · rw [hc]; simp; omega
        · simp [hl]
      · intro hisok
        rw [hloop] at hisok ⊢
        obtain ⟨hc, hl⟩ := herr hisok
        constructor
        · rw [hc]; simp; omega
        · simp; omega

lemma dictInsert_new (acc : List (String × String)) (p v : String)
    (h : ∀ q ∈ acc, q.1 ≠ p) : dictInsert acc p v = acc ++ [(p, v)] := by
  unfold dictInsert
  rw [if_neg]
  simp only [List.any_eq_true, not_exists, not_and]
  intro q hq
  simpa using h q hq

lemma researchLoop_ok_dict (gen : GenCap) (topic : String) :
    ∀ (ps : List String) (i : Nat) (acc : List (String × String)) (st : OrchState)
      (d : List (String × String)),
      (researchLoop gen topic ps i acc st).1 = .ok d →
      (∀ p ∈ ps, ∀ q ∈ acc, q.1 ≠ p) → ps.Nodup →
      ∃ resps : List String, resps.length = ps.length ∧ d = acc ++ ps.zip resps := by
  intro ps
  induction ps with
  | nil =>
    intro i acc st d h _ _
    refine ⟨[], rfl, ?_⟩
    simp only [researchLoop, Except.ok.injEq] at h
    simp [← h]
  | cons p ps ih =>
    intro i acc st d h hfresh hnd
    rcases hg : gen st.calls (researchReq topic ("Focus on this perspective: " ++ p)) with e | s
    · simp [researchLoop, researchCall, callGen, hg, Except.map] at h
    · have hloop : researchLoop gen topic (p :: ps) i acc st =
          researchLoop gen topic ps (i + 1) (dictInsert acc p s)
            (log_step { st with
                calls := st.calls + 1
                trace := st.trace ++ [.research topic ("Focus on this perspective: " ++ p)] }
              ("research_perspective_" ++ toString i) "Researcher" (.research (mkResearch topic s))) := by
        simp [researchLoop, researchCall, callGen, hg, Except.map, mkResearch]
      rw [hloop] at h
      have hins : dictInsert acc p s = acc ++ [(p, s)] :=
        dictInsert_new acc p s (fun q hq => hfresh p (List.mem_cons_self p ps) q hq)
      have hfresh2 : ∀ q ∈ ps, ∀ r ∈ dictInsert acc p s, r.1 ≠ q := by
        intro q hq r hr
        rw [hins] at hr
        rcases List.mem_append.mp hr with hr | hr
        · exact hfresh q (List.mem_cons_of_mem p hq) r hr
        · have hrp : r = (p, s) := by simpa using hr
          rw [hrp]
          intro hpq
          exact (List.nodup_cons.mp hnd).1 ((show p = q from hpq).symm ▸ hq)
      obtain ⟨resps, hlen, hd⟩ :=
        ih (i + 1) (dictInsert acc p s) _ d h hfresh2 (List.nodup_cons.mp hnd).2
      refine ⟨s :: resps, by simp [hlen], ?_⟩
      rw [hd, hins]
      simp [List.zip_cons_cons]

lemma comparativeTail_ok_eq (gen : GenCap) (st : OrchState) (t : String)
    (ps : List String) (d : List (String × String)) (cc : Option CrossCheckResult)
    (sf sw : String)
    (h1 : gen st.calls (factCheckReq (combinedResearch d) t) = .ok sf)
    (h2 : gen (st.calls + 1)
      (writeComparisonReq t d (cc.map (fun r => r.cross_check_report))) = .ok sw) :
    comparativeTail gen st t ps d cc =
      (.ok { workflow_type := "comparative", topic := t, perspectives := ps,
             research_results := d, cross_check := cc,
             overall_fact_check := mkFactCheck t sf, comparison := mkComparison t sw },
       { history := st.history ++
           [⟨st.history.length, "overall_fact_check", "FactChecker",
             .factCheck (mkFactCheck t sf)⟩,
            ⟨st.history.length + 1, "write_comparison", "Writer",
             .comparison (mkComparison t sw)⟩],
         calls := st.calls + 2,
         trace := st.trace ++ [.factCheck (combinedResearch d) t,
           .writeComparison t d (cc.map (fun r => r.cross_check_report))] }) := by
  simp [comparativeTail, factCheckCall, writeComparisonCall, callGen, log_step,
    h1, h2, Except.map, mkFactCheck]

lemma comparativeTail_ok_gen (gen : GenCap) (st : OrchState) (t : String)
    (ps : List String) (d : List (String × String)) (cc : Option CrossCheckResult)
    (rec : ComparativeRecord)
    (h : (comparativeTail gen st t ps d cc).1 = .ok rec) :
    ∃ sf sw, gen st.calls (factCheckReq (combinedResearch d) t) = .ok sf ∧
      gen (st.calls + 1)
        (writeComparisonReq t d (cc.map (fun r => r.cross_check_report))) = .ok sw ∧
      rec = { workflow_type := "comparative", topic := t, perspectives := ps,
              research_results := d, cross_check := cc,
              overall_fact_check := mkFactCheck t sf, comparison := mkComparison t sw } := by
  rcases hg1 : gen st.calls (factCheckReq (combinedResearch d) t) with e1 | sf
  · simp [comparativeTail, factCheckCall, callGen, hg1, Except.map] at h
  · rcases hg2 : gen (st.calls + 1)
        (writeComparisonReq t d (cc.map (fun r => r.cross_check_report))) with e2 | sw
    · simp [comparativeTail, factCheckCall, writeComparisonCall, callGen, log_step,
        hg1, hg2, Except.map, mkFactCheck] at h
    · refine ⟨sf, sw, rfl, hg2, ?_⟩
      have := comparativeTail_ok_eq gen st t ps d cc sf sw hg1 hg2
      rw [this] at h
      simpa using h.symm

lemma comparativeTail_err (gen : GenCap) (st : OrchState) (t : String)
    (ps : List String) (d : List (String × String)) (cc : Option CrossCheckResult)
    (err : RunError)
    (h : (comparativeTail gen st t ps d cc).1 = .error err) :
    ∃ e, err = .genFailure e ∧
      ∃ tail, (comparativeTail gen st t ps d cc).2.history = st.history ++ tail ∧
        (comparativeTail gen st t ps d cc).2.calls = st.calls + tail.length + 1 ∧
        tail.length < 2 ∧
        ∃ ttail, (comparativeTail gen st t ps d cc).2.trace = st.trace ++ ttail ∧
          ttail.filter isCrossCheckCall = [] := by
  rcases hg1 : gen st.calls (factCheckReq (combinedResearch d) t) with e1 | sf
  · refine ⟨e1, ?_, [], ?_, ?_, by simp, [.factCheck (combinedResearch d) t], ?_, by simp⟩ <;>
      simp_all [comparativeTail, factCheckCall, callGen, Except.map]
  · rcases hg2 : gen (st.calls + 1)
        (writeComparisonReq t d (cc.map (fun r => r.cross_check_report))) with e2 | sw
    · refine ⟨e2, ?_,
        [⟨st.history.length, "overall_fact_check", "FactChecker", .factCheck (mkFactCheck t sf)⟩],
        ?_, ?_, by simp,
        [.factCheck (combinedResearch d) t,
         .writeComparison t d (cc.map (fun r => r.cross_check_report))], ?_, by simp⟩ <;>
      simp_all [comparativeTail, factCheckCall, writeComparisonCall, callGen, log_step,
        Except.map, mkFactCheck]
    · exfalso
      simp [comparativeTail, factCheckCall, writeComparisonCall, callGen, log_step,
        hg1, hg2, Except.map, mkFactCheck] at h

lemma comparative_ok_split (gen : GenCap) (st : OrchState) (t : String)
    (ps : List String) (w : String) (rec : ComparativeRecord)
    (h : (comparative_workflow gen st t ps w).1 = .ok rec) :
    ∃ d stL, researchLoop gen t ps 1 [] st = (.ok d, stL) ∧
      ((2 ≤ ps.length ∧
        ∃ q0 q1 f0 f1 sc,
          d[0]? = some q0 ∧ d[1]? = some q1 ∧
          dictGet? d q0.1 = some f0 ∧ dictGet? d q1.1 = some f1 ∧
          gen stL.calls (crossCheckReq f0 f1 t) = .ok sc ∧
          comparative_workflow gen st t ps w =
            comparativeTail gen
              (log_step { stL with
                  calls := stL.calls + 1
                  trace := stL.trace ++ [.crossCheck f0 f1 t] }
                "cross_check" "FactChecker" (.crossCheck (mkCrossCheck t sc)))
              t ps d (some (mkCrossCheck t sc))) ∨
       (ps.length < 2 ∧
        comparative_workflow gen st t ps w = comparativeTail gen stL t ps d none)) := by
  rcases hl : researchLoop gen t ps 1 [] st with ⟨lr, stL⟩
  rcases lr with e | d
  · simp [comparative_workflow, hl] at h
  · refine ⟨d, stL, rfl, ?_⟩
    by_cases hlen : 2 ≤ ps.length
    · rcases hk0 : d[0]? with _ | q0
      · simp [comparative_workflow, hl, hlen, hk0] at h
      · rcases hk1 : d[1]? with _ | q1
        · simp [comparative_workflow, hl, hlen, hk0, hk1] at h
        · rcases hf0 : dictGet? d q0.1 with _ | f0
          · simp [comparative_workflow, hl, hlen, hk0, hk1, hf0] at h
          · rcases hf1 : dictGet? d q1.1 with _ | f1
            · simp [comparative_workflow, hl, hlen, hk0, hk1, hf0, hf1] at h
            · rcases hgc : gen stL.calls (crossCheckReq f0 f1 t) with e | sc
              · simp [comparative_workflow, hl, hlen, hk0, hk1, hf0, hf1,
                  crossCheckCall, callGen, hgc, Except.map] at h
              · refine .inl ⟨hlen, q0, q1, f0, f1, sc, rfl, rfl, hf0, hf1, hgc, ?_⟩
                simp [comparative_workflow, hl, hlen, hk0, hk1, hf0, hf1,
                  crossCheckCall, callGen, hgc, Except.map, mkCrossCheck]
    · refine .inr ⟨by omega, ?_⟩
      simp [comparative_workflow, hl, hlen]

lemma comparative_err (gen : GenCap) (st : OrchState) (t : String)
    (ps : List String) (w : String) (e : GenErr)
    (h : (comparative_workflow gen st t ps w).1 = .error (.genFailure e)) :
    ∃ tail, (comparative_workflow gen st t ps w).2.history = st.history ++ tail ∧
      (comparative_workflow gen st t ps w).2.calls = st.calls + tail.length + 1 := by
  obtain ⟨htail, ttail, hh, ht, hres, hok, herr⟩ := researchLoop_state gen t ps 1 [] st
  rcases hl : researchLoop gen t ps 1 [] st with ⟨lr, stL⟩
  rw [hl] at hh ht hok herr
  dsimp only at hh ht hok herr
  rcases lr with e0 | d
  · refine ⟨htail, ?_, ?_⟩
    · simpa [comparative_workflow, hl] using hh
    · have := herr (by simp [Except.isOk, Except.toBool])
      simpa [comparative_workflow, hl] using this.1
  · obtain ⟨hcalls, hlenh⟩ := hok (by simp [Except.isOk, Except.toBool])
    by_cases hlen : 2 ≤ ps.length
    · rcases hk0 : d[0]? with _ | q0
      · simp [comparative_workflow, hl, hlen, hk0] at h
      · rcases hk1 : d[1]? with _ | q1
        · simp [comparative_workflow, hl, hlen, hk0, hk1] at h
        · rcases hf0 : dictGet? d q0.1 with _ | f0
          · simp [comparative_workflow, hl, hlen, hk0, hk1, hf0] at h
          · rcases hf1 : dictGet? d q1.1 with _ | f1
            · simp [comparative_workflow, hl, hlen, hk0, hk1, hf0, hf1] at h
            · rcases hgc : gen stL.calls (crossCheckReq f0 f1 t) with e1 | sc
              · refine ⟨htail, ?_, ?_⟩
                · simpa [comparative_workflow, hl, hlen, hk0, hk1, hf0, hf1,
                    crossCheckCall, callGen, hgc, Except.map] using hh
                · simp [comparative_workflow, hl, hlen, hk0, hk1, hf0, hf1,
                    crossCheckCall, callGen, hgc, Except.map]
                  omega
              · have hwe : comparative_workflow gen st t ps w =
                    comparativeTail gen
                      (log_step { stL with
                          calls := stL.calls + 1
                          trace := stL.trace ++ [.crossCheck f0 f1 t] }
                        "cross_check" "FactChecker" (.crossCheck (mkCrossCheck t sc)))
                      t ps d (some (mkCrossCheck t sc)) := by
                  simp [comparative_workflow, hl, hlen, hk0, hk1, hf0, hf1,
                    crossCheckCall, callGen, hgc, Except.map, mkCrossCheck]
                rw [hwe] at h ⊢
                obtain ⟨e2, he2, tail2, hth, htc, _, _⟩ := comparativeTail_err _ _ _ _ _ _ _ h
                refine ⟨htail ++
                  [⟨stL.history.length, "cross_check", "FactChecker",
                    .crossCheck (mkCrossCheck t sc)⟩] ++ tail2, ?_, ?_⟩
                · rw [hth]
                  simp [log_step, hh]
                · rw [htc]
                  simp [log_step]
                  omega
    · have hwe : comparative_workflow gen st t ps w =
          comparativeTail gen stL t ps d none := by
        simp [comparative_workflow, hl, hlen]
      rw [hwe] at h ⊢
      obtain ⟨e2, he2, tail2, hth, htc, _, _⟩ := comparativeTail_err _ _ _ _ _ _ _ h
      refine ⟨htail ++ tail2, ?_, ?_⟩
      · rw [hth, hh]
        simp
      · rw [htc]
        simp
        omega

/- ## Concrete oracles used for witnesses -/

/-- An oracle that always answers with the text `"text"`. -/
def genOk : GenCap := fun _ _ => .ok "text"

/-- An oracle whose second call (call index 1) fails and all other calls
succeed. -/
def genFailAt1 : GenCap := fun i _ => if i = 1 then .error ⟨"boom"⟩ else .ok "text"

/- ## Claim theorems -/

/-- C4: for every topic, context, writing style and content length, after a
successful Simple pipeline run on a fresh orchestrator the step log contains
exactly 3 entries, in order: research, fact_check, write — regardless of
topic content — and the returned record's `workflow_type` equals
`"simple"`. -/
theorem claim_C4_simple_pipeline_log (gen : GenCap) (t c ws cl : String) (rec : SimpleRecord)
    (h : (simple_workflow gen initState t c ws cl).1 = .ok rec) :
    (simple_workflow gen initState t c ws cl).2.history.map (fun en => en.step) =
      ["research", "fact_check", "write"] ∧
    rec.workflow_type = "simple" := by
  obtain ⟨s1, s2, s3, h1, h2, h3⟩ := simple_ok_gen gen initState t c ws cl rec h
  have heq := simple_ok_eq gen initState t c ws cl s1 s2 s3 h1 h2 h3
  constructor
  · rw [heq]
    simp [initState]
  · rw [heq] at h
    have : rec = ⟨"simple", t, mkResearch t s1, mkFactCheck t s2, mkArticle t ws s3⟩ := by
      simpa using h.symm
    rw [this]

/-- Witness for C4 at a concrete oracle and inputs. -/
theorem claim_C4_witness :
    (simple_workflow genOk initState "T" "" "informative" "medium").2.history.map
        (fun en => en.step) = ["research", "fact_check", "write"] ∧
    ({ workflow_type := "simple", topic := "T", research := mkResearch "T" "text",
       fact_check := mkFactCheck "T" "text",
       article := mkArticle "T" "informative" "text" } : SimpleRecord).workflow_type =
      "simple" :=
  claim_C4_simple_pipeline_log genOk "T" "" "informative" "medium" _ rfl

/-- C10: `Researcher.research` returns a result whose
`needs_fact_checking` flag is true and whose `findings` payload is
non-empty whenever the generation call returns non-empty text; and with an
empty (absent) context the prompt is built with the generic default context
"General overview needed". -/
theorem claim_C10_research_contract (gen : GenCap) (st : OrchState) (t c s : String)
    (hgen : gen st.calls (researchReq t c) = .ok s) (hs : s ≠ "") :
    (∃ r, (researchCall gen st t c).1 = .ok r ∧
      r.needs_fact_checking = true ∧ r.findings ≠ "") ∧
    researchReq t "" = researchReq t "General overview needed" := by
  refine ⟨⟨mkResearch t s, ?_, rfl, hs⟩, ?_⟩
  · simp [researchCall, callGen, hgen, Except.map]
  · rfl

/-- Witness for C10 at a concrete oracle and inputs. -/
theorem claim_C10_witness :
    (∃ r, (researchCall genOk initState "T" "").1 = .ok r ∧
      r.needs_fact_checking = true ∧ r.findings ≠ "") ∧
    researchReq "T" "" = researchReq "T" "General overview needed" :=
  claim_C10_research_contract genOk initState "T" "" "text" rfl (by decide)

/-- State effect of `get_summary`: exactly one `write_summary` generation
call on the primary artifact with `max_paragraphs = 3`, and no `log_step`:
the history is unchanged. -/
lemma get_summary_state (gen : GenCap) (st : OrchState) (wr : WorkflowResult) :
    (get_summary gen st wr).2.trace =
      st.trace ++ [.writeSummary wr.topic (primaryContent wr) 3] ∧
    (get_summary gen st wr).2.calls = st.calls + 1 ∧
    (get_summary gen st wr).2.history = st.history := by
  rcases hg : gen st.calls (writeSummaryReq wr.topic (primaryContent wr) 3) with e | s <;>
    simp [get_summary, writeSummaryCall, callGen, hg, Except.map]

/-- C1 (amended): for every workflow record, `get_summary` issues exactly
one `Writer.write_summary` call with `max_paragraphs = 3` on the record's
primary textual artifact (article content for Simple/Iterative records,
comparison content for Comparative records), but this call does not append
to the orchestrator's step log: the log after `get_summary` equals the log
before. -/
theorem claim_C1_get_summary_behaviour (gen : GenCap) (st : OrchState)
    (wr : WorkflowResult) :
    (get_summary gen st wr).2.trace =
      st.trace ++ [.writeSummary wr.topic (primaryContent wr) 3] ∧
    (get_summary gen st wr).2.calls = st.calls + 1 ∧
    (get_summary gen st wr).2.history = st.history :=
  get_summary_state gen st wr

/-- A concrete Simple record used for the C1 counterexample. -/
def wr0 : WorkflowResult :=
  .simple ⟨"simple", "T", mkResearch "T" "r", mkFactCheck "T" "f",
    mkArticle "T" "informative" "a"⟩

/-- C1 counterexample: on a concrete record and oracle, the step log after
`get_summary` does not gain one entry — it is unchanged (0 entries, not
1), refuting the claimed log append. -/
theorem claim_C1_counterexample :
    (get_summary genOk initState wr0).2.history.length ≠
      initState.history.length + 1 := by decide

/-- C9: serializing the same workflow record (with the same live history
content) to two different sinks yields byte-for-byte identical serialized
content, the record's fields — embedded timestamps included — being
written as-is; the sink name only selects the destination. -/
theorem claim_C9_save_deterministic (wr : WorkflowResult)
    (hist : List StepLogEntry) (f1 f2 : String) :
    (save_workflow_results wr hist f1).2 = (save_workflow_results wr hist f2).2 ∧
    (save_workflow_results wr hist f1).1 = f1 := ⟨rfl, rfl⟩

/-- C3: a successful Iterative pipeline run on a fresh orchestrator appends
exactly 5 step log entries, and the context string passed to the second
(refined) `Researcher.research` call contains the full text of the first
fact-check report as a substring. -/
theorem claim_C3_iterative_refinement (gen : GenCap) (t ic ws cl : String)
    (rec : IterativeRecord)
    (h : (iterative_workflow gen initState t ic ws cl).1 = .ok rec) :
    (iterative_workflow gen initState t ic ws cl).2.history.length = 5 ∧
    ∃ ctx, (iterative_workflow gen initState t ic ws cl).2.trace =
        [.research t ic, .factCheck rec.initial_research.findings t,
         .research t ctx, .factCheck rec.refined_research.findings t,
         .writeArticle t rec.refined_research.findings
           rec.final_fact_check.fact_check_report ws cl] ∧
      ∃ pre suf, ctx = pre ++ rec.initial_fact_check.fact_check_report ++ suf := by
  obtain ⟨s1, s2, s3, s4, s5, h1, h2, h3, h4, h5⟩ :=
    iterative_ok_gen gen initState t ic ws cl rec h
  have heq := iterative_ok_eq gen initState t ic ws cl s1 s2 s3 s4 s5 h1 h2 h3 h4 h5
  have hrec : rec = ⟨"iterative", t, mkResearch t s1, mkFactCheck t s2,
      mkResearch t s3, mkFactCheck t s4, mkArticle t ws s5⟩ := by
    rw [heq] at h
    simpa using h.symm
  constructor
  · rw [heq]
    simp [initState]
  · refine ⟨"Previous research was fact-checked. Address these points:\n" ++ s2, ?_,
      "Previous research was fact-checked. Address these points:\n", "", ?_⟩
    · rw [heq, hrec]
      simp [initState]
    · rw [hrec]
      simp

/-- Witness for C3 at a concrete oracle and inputs. -/
theorem claim_C3_witness :
    (iterative_workflow genOk initState "T" "init" "informative" "medium").2.history.length = 5 ∧
    ∃ ctx, (iterative_workflow genOk initState "T" "init" "informative" "medium").2.trace =
        [.research "T" "init",
         .factCheck (mkResearch "T" "text").findings "T",
         .research "T" ctx,
         .factCheck (mkResearch "T" "text").findings "T",
         .writeArticle "T" (mkResearch "T" "text").findings
           (mkFactCheck "T" "text").fact_check_report "informative" "medium"] ∧
      ∃ pre suf, ctx = pre ++ (mkFactCheck "T" "text").fact_check_report ++ suf := by
  have := claim_C3_iterative_refinement genOk "T" "init" "informative" "medium"
    ⟨"iterative", "T", mkResearch "T" "text", mkFactCheck "T" "text",
     mkResearch "T" "text", mkFactCheck "T" "text",
     mkArticle "T" "informative" "text"⟩ rfl
  simpa using this

/-- C2 (amended): for every topic and list of N pairwise-distinct
perspective labels (N ≥ 1), a successful Comparative pipeline run on a
fresh orchestrator appends exactly N + (1 if N ≥ 2 else 0) + 2 step log
entries, and the perspectives-to-findings mapping in the returned record
has exactly N entries whose key order equals the input perspective
order. -/
theorem claim_C2_comparative_counts (gen : GenCap) (t w : String) (ps : List String)
    (hne : ps ≠ []) (hnd : ps.Nodup) (rec : ComparativeRecord)
    (h : (comparative_workflow gen initState t ps w).1 = .ok rec) :
    (comparative_workflow gen initState t ps w).2.history.length =
      ps.length + (if 2 ≤ ps.length then 1 else 0) + 2 ∧
    rec.research_results.map (fun q => q.1) = ps := by
  obtain ⟨d, stL, hl, hbr⟩ := comparative_ok_split gen initState t ps w rec h
  obtain ⟨resps, hrl, hd⟩ :=
    researchLoop_ok_dict gen t ps 1 [] initState d (by rw [hl]) (by simp) hnd
  have hkeys : d.map (fun q => q.1) = ps := by
    rw [hd]
    simpa using List.map_fst_zip ps resps (le_of_eq hrl.symm)
  obtain ⟨htail, ttail, hh, ht, hres, hok, herr⟩ := researchLoop_state gen t ps 1 [] initState
  rw [hl] at hh hok
  dsimp only at hh hok
  obtain ⟨hcalls, hlenh⟩ := hok (by simp [Except.isOk, Except.toBool])
  rcases hbr with ⟨hlen, q0, q1, f0, f1, sc, hq0, hq1, hf0, hf1, hgc, hwe⟩ | ⟨hlen, hwe⟩
  · rw [hwe] at h
    obtain ⟨sf, sw, hg1, hg2, hrec⟩ := comparativeTail_ok_gen _ _ _ _ _ _ _ h
    have hteq := comparativeTail_ok_eq gen
      (log_step { stL with
          calls := stL.calls + 1
          trace := stL.trace ++ [.crossCheck f0 f1 t] }
        "cross_check" "FactChecker" (.crossCheck (mkCrossCheck t sc)))
      t ps d (some (mkCrossCheck t sc)) sf sw hg1 hg2
    constructor
    · rw [hwe, hteq]
      simp only [log_step_history]
      simp [hh, initState, hlen, hlenh]
    · rw [hrec]
      exact hkeys
  · rw [hwe] at h
    obtain ⟨sf, sw, hg1, hg2, hrec⟩ := comparativeTail_ok_gen _ _ _ _ _ _ _ h
    have hteq := comparativeTail_ok_eq gen stL t ps d none sf sw hg1 hg2
    have hlen2 : ¬ 2 ≤ ps.length := by omega
    constructor
    · rw [hwe, hteq]
      simp [hh, initState, hlen2, hlenh]
    · rw [hrec]
      exact hkeys

/-- Witness for C2 at a concrete oracle and two distinct perspectives. -/
theorem claim_C2_witness :
    (comparative_workflow genOk initState "T" ["A", "B"] "analytical").2.history.length =
      (["A", "B"] : List String).length +
        (if 2 ≤ (["A", "B"] : List String).length then 1 else 0) + 2 ∧
    ([("A", "text"), ("B", "text")] : List (String × String)).map (fun q => q.1) =
      ["A", "B"] := by
  have := claim_C2_comparative_counts genOk "T" "analytical" ["A", "B"]
    (by decide) (by decide)
    ⟨"comparative", "T", ["A", "B"], [("A", "text"), ("B", "text")],
     some (mkCrossCheck "T" "text"), mkFactCheck "T" "text", mkComparison "T" "text"⟩
    rfl
  simpa using this

/-- C2 counterexample: with duplicate labels `["A", "B", "A"]` (N = 3) the
run succeeds but the returned mapping has only 2 entries, not N = 3: the
Python dict silently collapses the duplicate label. -/
theorem claim_C2_counterexample :
    ((comparative_workflow genOk initState "T" ["A", "B", "A"] "analytical").1).toOption.map
        (fun rec => rec.research_results.length) = some 2 ∧
    (["A", "B", "A"] : List String).length = 3 := by decide

/-- C5 (amended): in the Comparative pipeline with pairwise-distinct
perspective labels, on a successful run with N ≥ 2 exactly one cross-check
is performed and it compares exactly the first two input perspectives'
findings in input order; if N < 2 the cross-check is skipped entirely and
the record's cross_check field is null, not an error. -/
theorem claim_C5_cross_check_policy (gen : GenCap) (st : OrchState) (t w : String)
    (ps : List String) (hnd : ps.Nodup) (rec : ComparativeRecord)
    (h : (comparative_workflow gen st t ps w).1 = .ok rec) :
    (2 ≤ ps.length →
      ∃ p0 p1 rest f0 f1 sc, ps = p0 :: p1 :: rest ∧
        rec.research_results[0]? = some (p0, f0) ∧
        rec.research_results[1]? = some (p1, f1) ∧
        rec.cross_check = some (mkCrossCheck t sc) ∧
        (comparative_workflow gen st t ps w).2.trace.filter isCrossCheckCall =
          st.trace.filter isCrossCheckCall ++ [.crossCheck f0 f1 t]) ∧
    (ps.length < 2 →
      rec.cross_check = none ∧
      (comparative_workflow gen st t ps w).2.trace.filter isCrossCheckCall =
        st.trace.filter isCrossCheckCall) := by
  obtain ⟨d, stL, hl, hbr⟩ := comparative_ok_split gen st t ps w rec h
  obtain ⟨resps, hrl, hd⟩ :=
    researchLoop_ok_dict gen t ps 1 [] st d (by rw [hl]) (by simp) hnd
  obtain ⟨htail, ttail, hh, ht, hres, hok, herr⟩ := researchLoop_state gen t ps 1 [] st
  rw [hl] at ht
  dsimp only at ht
  have httail : ttail.filter isCrossCheckCall = [] := by
    rw [List.filter_eq_nil]
    intro x hx
    obtain ⟨tc, cc, rfl⟩ := hres x hx
    simp
  rcases hbr with ⟨hlen, q0, q1, f0, f1, sc, hq0, hq1, hf0, hf1, hgc, hwe⟩ | ⟨hlen, hwe⟩
  · obtain ⟨p0, p1, rest, rfl⟩ : ∃ p0 p1 rest, ps = p0 :: p1 :: rest := by
      rcases ps with _ | ⟨a, _ | ⟨b, l⟩⟩
      · simp at hlen
      · simp at hlen
      · exact ⟨a, b, l, rfl⟩
    obtain ⟨g0, g1, r2, rfl⟩ : ∃ g0 g1 r2, resps = g0 :: g1 :: r2 := by
      rcases resps with _ | ⟨a, _ | ⟨b, l⟩⟩
      · simp at hrl
      · simp at hrl
      · exact ⟨a, b, l, rfl⟩
    have hd2 : d = (p0, g0) :: (p1, g1) :: rest.zip r2 := by
      simpa using hd
    have hp01 : p0 ≠ p1 := by
      have := (List.nodup_cons.mp hnd).1
      simp at this
      exact this.1
    have hq0d : q0 = (p0, g0) := by
      rw [hd2] at hq0
      simpa using hq0.symm
    have hq1d : q1 = (p1, g1) := by
      rw [hd2] at hq1
      simpa using hq1.symm
    have hf0d : f0 = g0 := by
      rw [hd2, hq0d] at hf0
      simp [dictGet?] at hf0
      exact hf0.symm
    have hf1d : f1 = g1 := by
      rw [hd2, hq1d] at hf1
      simp only [dictGet?] at hf1
      rw [List.find?_cons_of_neg, List.find?_cons_of_pos] at hf1
      · simpa using hf1.symm
      · simp
      · simp [hp01]
    rw [hwe] at h
    obtain ⟨sf, sw, hg1, hg2, hrec⟩ := comparativeTail_ok_gen _ _ _ _ _ _ _ h
    have hteq := comparativeTail_ok_eq gen
      (log_step { stL with
          calls := stL.calls + 1
          trace := stL.trace ++ [.crossCheck f0 f1 t] }
        "cross_check" "FactChecker" (.crossCheck (mkCrossCheck t sc)))
      t (p0 :: p1 :: rest) d (some (mkCrossCheck t sc)) sf sw hg1 hg2
    constructor
    · intro _
      refine ⟨p0, p1, rest, g0, g1, sc, rfl, ?_, ?_, ?_, ?_⟩
      · rw [hrec]
        simp [hd2]
      · rw [hrec]
        simp [hd2]
      · rw [hrec]
      · rw [hwe, hteq]
        simp only [log_step_trace]
        simp [ht, List.filter_append, httail, hf0d, hf1d]
    · intro hlt
      simp at hlt
      omega
  · rw [hwe] at h
    obtain ⟨sf, sw, hg1, hg2, hrec⟩ := comparativeTail_ok_gen _ _ _ _ _ _ _ h
    have hteq := comparativeTail_ok_eq gen stL t ps d none sf sw hg1 hg2
    constructor
    · intro hge
      omega
    · intro _
      constructor
      · rw [hrec]
      · rw [hwe, hteq]
        simp [ht, List.filter_append, httail]

/-- The concrete Comparative record produced by `genOk` on perspectives
`["A", "B"]`, used by witnesses. -/
def recC5 : ComparativeRecord :=
  ⟨"comparative", "T", ["A", "B"], [("A", "text"), ("B", "text")],
   some (mkCrossCheck "T" "text"), mkFactCheck "T" "text", mkComparison "T" "text"⟩

/-- Witness for C5 at a concrete oracle and two distinct perspectives. -/
theorem claim_C5_witness :
    (2 ≤ (["A", "B"] : List String).length →
      ∃ p0 p1 rest f0 f1 sc, (["A", "B"] : List String) = p0 :: p1 :: rest ∧
        recC5.research_results[0]? = some (p0, f0) ∧
        recC5.research_results[1]? = some (p1, f1) ∧
        recC5.cross_check = some (mkCrossCheck "T" sc) ∧
        (comparative_workflow genOk initState "T" ["A", "B"] "analytical").2.trace.filter
            isCrossCheckCall =
          initState.trace.filter isCrossCheckCall ++ [.crossCheck f0 f1 "T"]) ∧
    ((["A", "B"] : List String).length < 2 →
      recC5.cross_check = none ∧
      (comparative_workflow genOk initState "T" ["A", "B"] "analytical").2.trace.filter
          isCrossCheckCall =
        initState.trace.filter isCrossCheckCall) :=
  claim_C5_cross_check_policy genOk initState "T" "analytical" ["A", "B"]
    (by decide) recC5 rfl

/-- C5 counterexample: with the duplicate list `["A", "A"]` (length 2) the
run raises a Python IndexError before `cross_check` is ever invoked — no
cross-check is performed at all, refuting the claim as stated for
arbitrary perspective lists of length ≥ 2. -/
theorem claim_C5_counterexample :
    (comparative_workflow genOk initState "T" ["A", "A"] "analytical").1 =
      .error .indexOut ∧
    (comparative_workflow genOk initState "T" ["A", "A"] "analytical").2.trace.filter
      isCrossCheckCall = [] := ⟨rfl, rfl⟩

/-- C8: in every successful pipeline run, every agent result stored in the
returned record that carries a topic attribute carries the same topic
string as the record itself. -/
theorem claim_C8_topic_consistency
    (gen1 gen2 gen3 : GenCap) (st1 st2 st3 : OrchState)
    (t1 c1 w1 l1 t2 c2 w2 l2 t3 w3 : String) (ps : List String)
    (recS : SimpleRecord) (recI : IterativeRecord) (recC : ComparativeRecord)
    (hS : (simple_workflow gen1 st1 t1 c1 w1 l1).1 = .ok recS)
    (hI : (iterative_workflow gen2 st2 t2 c2 w2 l2).1 = .ok recI)
    (hC : (comparative_workflow gen3 st3 t3 ps w3).1 = .ok recC) :
    (recS.research.topic = recS.topic ∧ recS.fact_check.topic = recS.topic ∧
     recS.article.topic = recS.topic) ∧
    (recI.initial_research.topic = recI.topic ∧
     recI.initial_fact_check.topic = recI.topic ∧
     recI.refined_research.topic = recI.topic ∧
     recI.final_fact_check.topic = recI.topic ∧
     recI.article.topic = recI.topic) ∧
    ((∀ cc, recC.cross_check = some cc → cc.topic = recC.topic) ∧
     recC.overall_fact_check.topic = recC.topic ∧
     recC.comparison.topic = recC.topic) := by
  refine ⟨?_, ?_, ?_⟩
  · obtain ⟨s1, s2, s3, h1, h2, h3⟩ := simple_ok_gen gen1 st1 t1 c1 w1 l1 recS hS
    have heq := simple_ok_eq gen1 st1 t1 c1 w1 l1 s1 s2 s3 h1 h2 h3
    rw [heq] at hS
    have hrec : recS = ⟨"simple", t1, mkResearch t1 s1, mkFactCheck t1 s2,
        mkArticle t1 w1 s3⟩ := by
      simpa using hS.symm
    rw [hrec]
    simp
  · obtain ⟨s1, s2, s3, s4, s5, h1, h2, h3, h4, h5⟩ :=
      iterative_ok_gen gen2 st2 t2 c2 w2 l2 recI hI
    have heq := iterative_ok_eq gen2 st2 t2 c2 w2 l2 s1 s2 s3 s4 s5 h1 h2 h3 h4 h5
    rw [heq] at hI
    have hrec : recI = ⟨"iterative", t2, mkResearch t2 s1, mkFactCheck t2 s2,
        mkResearch t2 s3, mkFactCheck t2 s4, mkArticle t2 w2 s5⟩ := by
      simpa using hI.symm
    rw [hrec]
    simp
  · obtain ⟨d, stL, hl, hbr⟩ := comparative_ok_split gen3 st3 t3 ps w3 recC hC
    rcases hbr with ⟨hlen, q0, q1, f0, f1, sc, hq0, hq1, hf0, hf1, hgc, hwe⟩ | ⟨hlen, hwe⟩ <;>
      rw [hwe] at hC <;>
      obtain ⟨sf, sw, hg1, hg2, hrec⟩ := comparativeTail_ok_gen _ _ _ _ _ _ _ hC <;>
      rw [hrec] <;>
      refine ⟨?_, by simp [mkFactCheck], by simp [mkComparison]⟩
    · intro cc hcc
      simp at hcc
      rw [← hcc]
      simp [mkCrossCheck]
    · intro cc hcc
      simp at hcc

/-- Witness for C8 at a concrete oracle and concrete runs of all three
pipelines. -/
theorem claim_C8_witness :
    (((mkResearch "T" "text").topic = "T" ∧ (mkFactCheck "T" "text").topic = "T" ∧
      (mkArticle "T" "informative" "text").topic = "T") : Prop) ∧ True := by
  constructor
  · have := claim_C8_topic_consistency genOk genOk genOk initState initState initState
      "T" "" "informative" "medium" "T" "" "informative" "medium" "T" "analytical" ["A", "B"]
      ⟨"simple", "T", mkResearch "T" "text", mkFactCheck "T" "text",
       mkArticle "T" "informative" "text"⟩
      ⟨"iterative", "T", mkResearch "T" "text", mkFactCheck "T" "text",
       mkResearch "T" "text", mkFactCheck "T" "text", mkArticle "T" "informative" "text"⟩
      recC5 rfl rfl rfl
    exact this.1
  · trivial

/-- C6: in every pipeline, a Generation Capability failure at step k is
not caught or retried: the run returns the propagated failure (no record),
the entries logged by the k-1 completed steps are preserved unchanged, and
exactly one generation call beyond the logged steps was made (the failed
one).  For the Simple pipeline the disjunction names the failing step
explicitly. -/
theorem claim_C6_failure_propagation
    (gen1 gen2 gen3 : GenCap) (st1 st2 st3 : OrchState)
    (t1 c1 w1 l1 t2 c2 w2 l2 t3 w3 : String) (ps : List String)
    (e1 e2 e3 : GenErr)
    (hS : (simple_workflow gen1 st1 t1 c1 w1 l1).1 = .error (.genFailure e1))
    (hI : (iterative_workflow gen2 st2 t2 c2 w2 l2).1 = .error (.genFailure e2))
    (hC : (comparative_workflow gen3 st3 t3 ps w3).1 = .error (.genFailure e3)) :
    ((gen1 st1.calls (researchReq t1 c1) = .error e1 ∧
      (simple_workflow gen1 st1 t1 c1 w1 l1).2.history = st1.history ∧
      (simple_workflow gen1 st1 t1 c1 w1 l1).2.calls = st1.calls + 1) ∨
     (∃ s1, gen1 st1.calls (researchReq t1 c1) = .ok s1 ∧
       gen1 (st1.calls + 1) (factCheckReq s1 t1) = .error e1 ∧
       (simple_workflow gen1 st1 t1 c1 w1 l1).2.history = st1.history ++
         [⟨st1.history.length, "research", "Researcher", .research (mkResearch t1 s1)⟩] ∧
       (simple_workflow gen1 st1 t1 c1 w1 l1).2.calls = st1.calls + 2) ∨
     (∃ s1 s2, gen1 st1.calls (researchReq t1 c1) = .ok s1 ∧
       gen1 (st1.calls + 1) (factCheckReq s1 t1) = .ok s2 ∧
       gen1 (st1.calls + 2) (writeArticleReq t1 s1 s2 w1 l1) = .error e1 ∧
       (simple_workflow gen1 st1 t1 c1 w1 l1).2.history = st1.history ++
         [⟨st1.history.length, "research", "Researcher", .research (mkResearch t1 s1)⟩,
          ⟨st1.history.length + 1, "fact_check", "FactChecker",
            .factCheck (mkFactCheck t1 s2)⟩] ∧
       (simple_workflow gen1 st1 t1 c1 w1 l1).2.calls = st1.calls + 3)) ∧
    (∃ tail, (iterative_workflow gen2 st2 t2 c2 w2 l2).2.history = st2.history ++ tail ∧
      (iterative_workflow gen2 st2 t2 c2 w2 l2).2.calls = st2.calls + tail.length + 1 ∧
      tail.length < 5) ∧
    (∃ tail, (comparative_workflow gen3 st3 t3 ps w3).2.history = st3.history ++ tail ∧
      (comparative_workflow gen3 st3 t3 ps w3).2.calls = st3.calls + tail.length + 1) := by
  refine ⟨?_, ?_, ?_⟩
  · obtain ⟨e, he, hdis⟩ := simple_err gen1 st1 t1 c1 w1 l1 _ hS
    have hee : e = e1 := by
      injection he with h
      exact h.symm
    rw [hee] at hdis
    exact hdis
  · obtain ⟨e, he, tail, hh, hc, hlt⟩ := iterative_err gen2 st2 t2 c2 w2 l2 _ hI
    exact ⟨tail, hh, hc, hlt⟩
  · exact comparative_err gen3 st3 t3 ps w3 e3 hC

/-- Witness for C6: a concrete oracle failing at its second call aborts
the Iterative pipeline after exactly 1 logged step and 2 generation
calls. -/
theorem claim_C6_witness :
    ∃ tail, (iterative_workflow genFailAt1 initState "T" "" "informative" "medium").2.history =
        initState.history ++ tail ∧
      (iterative_workflow genFailAt1 initState "T" "" "informative" "medium").2.calls =
        initState.calls + tail.length + 1 ∧
      tail.length < 5 :=
  (claim_C6_failure_propagation genFailAt1 genFailAt1 genFailAt1
    initState initState initState
    "T" "" "informative" "medium" "T" "" "informative" "medium" "T" "analytical"
    ["A", "B"] ⟨"boom"⟩ ⟨"boom"⟩ ⟨"boom"⟩ rfl rfl rfl).2.1

/- ## History monotonicity helpers (for C7) -/

lemma simple_hist_mono (gen : GenCap) (st : OrchState) (t c ws cl : String) :
    ∃ tail, (simple_workflow gen st t c ws cl).2.history = st.history ++ tail := by
  rcases hres : (simple_workflow gen st t c ws cl).1 with err | rec
  · obtain ⟨e, he, hdis⟩ := simple_err gen st t c ws cl err hres
    rcases hdis with ⟨_, hh, _⟩ | ⟨s1, _, _, hh, _⟩ | ⟨s1, s2, _, _, _, hh, _⟩
    · exact ⟨[], by simp [hh]⟩
    · exact ⟨_, hh⟩
    · exact ⟨_, hh⟩
  · obtain ⟨s1, s2, s3, h1, h2, h3⟩ := simple_ok_gen gen st t c ws cl rec hres
    have heq := simple_ok_eq gen st t c ws cl s1 s2 s3 h1 h2 h3
    exact ⟨_, by rw [heq]⟩

lemma iterative_hist_mono (gen : GenCap) (st : OrchState) (t ic ws cl : String) :
    ∃ tail, (iterative_workflow gen st t ic ws cl).2.history = st.history ++ tail := by
  rcases hres : (iterative_workflow gen st t ic ws cl).1 with err | rec
  · obtain ⟨e, he, tail, hh, _⟩ := iterative_err gen st t ic ws cl err hres
    exact ⟨tail, hh⟩
  · obtain ⟨s1, s2, s3, s4, s5, h1, h2, h3, h4, h5⟩ :=
      iterative_ok_gen gen st t ic ws cl rec hres
    have heq := iterative_ok_eq gen st t ic ws cl s1 s2 s3 s4 s5 h1 h2 h3 h4 h5
    exact ⟨_, by rw [heq]⟩

lemma comparativeTail_hist_mono (gen : GenCap) (st : OrchState) (t : String)
    (ps : List String) (d : List (String × String)) (cc : Option CrossCheckResult) :
    ∃ tail, (comparativeTail gen st t ps d cc).2.history = st.history ++ tail := by
  rcases hg1 : gen st.calls (factCheckReq (combinedResearch d) t) with e | sf
  · exact ⟨[], by simp [comparativeTail, factCheckCall, callGen, hg1, Except.map]⟩
  · rcases hg2 : gen (st.calls + 1)
        (writeComparisonReq t d (cc.map (fun r => r.cross_check_report))) with e | sw
    · refine ⟨[⟨st.history.length, "overall_fact_check", "FactChecker",
        .factCheck (mkFactCheck t sf)⟩], ?_⟩
      simp [comparativeTail, factCheckCall, writeComparisonCall, callGen, log_step,
        hg1, hg2, Except.map, mkFactCheck]
    · have heq := comparativeTail_ok_eq gen st t ps d cc sf sw hg1 hg2
      exact ⟨_, by rw [heq]⟩

lemma comparative_hist_mono (gen : GenCap) (st : OrchState) (t : String)
    (ps : List String) (w : String) :
    ∃ tail, (comparative_workflow gen st t ps w).2.history = st.history ++ tail := by
  obtain ⟨htail, ttail, hh, ht, hres, hok, herr⟩ := researchLoop_state gen t ps 1 [] st
  rcases hl : researchLoop gen t ps 1 [] st with ⟨lr, stL⟩
  rw [hl] at hh
  dsimp only at hh
  rcases lr with e0 | d
  · exact ⟨htail, by simpa [comparative_workflow, hl] using hh⟩
  · by_cases hlen : 2 ≤ ps.length
    · rcases hk0 : d[0]? with _ | q0
      · exact ⟨htail, by simpa [comparative_workflow, hl, hlen, hk0] using hh⟩
      · rcases hk1 : d[1]? with _ | q1
        · exact ⟨htail, by simpa [comparative_workflow, hl, hlen, hk0, hk1] using hh⟩
        · rcases hf0 : dictGet? d q0.1 with _ | f0
          · exact ⟨htail, by simpa [comparative_workflow, hl, hlen, hk0, hk1, hf0] using hh⟩
          · rcases hf1 : dictGet? d q1.1 with _ | f1
            · exact ⟨htail,
                by simpa [comparative_workflow, hl, hlen, hk0, hk1, hf0, hf1] using hh⟩
            · rcases hgc : gen stL.calls (crossCheckReq f0 f1 t) with e1 | sc
              · exact ⟨htail, by simpa [comparative_workflow, hl, hlen, hk0, hk1, hf0, hf1,
                  crossCheckCall, callGen, hgc, Except.map] using hh⟩
              · have hwe : comparative_workflow gen st t ps w =
                    comparativeTail gen
                      (log_step { stL with
                          calls := stL.calls + 1
                          trace := stL.trace ++ [.crossCheck f0 f1 t] }
                        "cross_check" "FactChecker" (.crossCheck (mkCrossCheck t sc)))
                      t ps d (some (mkCrossCheck t sc)) := by
                  simp [comparative_workflow, hl, hlen, hk0, hk1, hf0, hf1,
                    crossCheckCall, callGen, hgc, Except.map, mkCrossCheck]
                obtain ⟨tail2, hh2⟩ := comparativeTail_hist_mono gen
                  (log_step { stL with
                      calls := stL.calls + 1
                      trace := stL.trace ++ [.crossCheck f0 f1 t] }
                    "cross_check" "FactChecker" (.crossCheck (mkCrossCheck t sc)))
                  t ps d (some (mkCrossCheck t sc))
                refine ⟨htail ++ [⟨stL.history.length, "cross_check", "FactChecker",
                  .crossCheck (mkCrossCheck t sc)⟩] ++ tail2, ?_⟩
                rw [hwe, hh2]
                simp [log_step, hh]
    · have hwe : comparative_workflow gen st t ps w =
          comparativeTail gen stL t ps d none := by
        simp [comparative_workflow, hl, hlen]
      obtain ⟨tail2, hh2⟩ := comparativeTail_hist_mono gen stL t ps d none
      refine ⟨htail ++ tail2, ?_⟩
      rw [hwe, hh2, hh]
      simp

/-- C7: every orchestrator operation only appends to the step log (prior
entries are never removed or mutated), and a returned record's
`workflow_history` field shows the instance's live log at observation time
(`recordHistoryView`), not a per-run copy: after a second pipeline run on
the same instance the view behind a previously returned record contains
the later run's entries too, so per-run entry counts hold only on a
freshly constructed orchestrator. -/
theorem claim_C7_history_append_only_and_live :
    (∀ (gen : GenCap) (st : OrchState) (t c ws cl : String),
      ∃ tail, (simple_workflow gen st t c ws cl).2.history = st.history ++ tail) ∧
    (∀ (gen : GenCap) (st : OrchState) (t ic ws cl : String),
      ∃ tail, (iterative_workflow gen st t ic ws cl).2.history = st.history ++ tail) ∧
    (∀ (gen : GenCap) (st : OrchState) (t : String) (ps : List String) (w : String),
      ∃ tail, (comparative_workflow gen st t ps w).2.history = st.history ++ tail) ∧
    (∀ (gen : GenCap) (st : OrchState) (wr : WorkflowResult),
      (get_summary gen st wr).2.history = st.history) ∧
    (∀ (st : OrchState) (n a : String) (d : StepData),
      ∃ tail, (log_step st n a d).history = st.history ++ tail) ∧
    (∀ (gen : GenCap) (t1 c1 w1 l1 t2 c2 w2 l2 : String)
      (rec1 rec2 : SimpleRecord),
      (simple_workflow gen initState t1 c1 w1 l1).1 = .ok rec1 →
      (simple_workflow gen (simple_workflow gen initState t1 c1 w1 l1).2
        t2 c2 w2 l2).1 = .ok rec2 →
      (recordHistoryView (simple_workflow gen initState t1 c1 w1 l1).2).length = 3 ∧
      ∃ tail, tail.length = 3 ∧
        recordHistoryView (simple_workflow gen
            (simple_workflow gen initState t1 c1 w1 l1).2 t2 c2 w2 l2).2 =
          recordHistoryView (simple_workflow gen initState t1 c1 w1 l1).2 ++ tail) := by
  refine ⟨simple_hist_mono, iterative_hist_mono, comparative_hist_mono, ?_, ?_, ?_⟩
  · intro gen st wr
    exact (get_summary_state gen st wr).2.2
  · intro st n a d
    exact ⟨[⟨st.history.length, n, a, d⟩], rfl⟩
  · intro gen t1 c1 w1 l1 t2 c2 w2 l2 rec1 rec2 h1 h2
    obtain ⟨s1, s2, s3, hg1, hg2, hg3⟩ := simple_ok_gen gen initState t1 c1 w1 l1 rec1 h1
    have heq1 := simple_ok_eq gen initState t1 c1 w1 l1 s1 s2 s3 hg1 hg2 hg3
    obtain ⟨s4, s5, s6, hg4, hg5, hg6⟩ :=
      simple_ok_gen gen (simple_workflow gen initState t1 c1 w1 l1).2 t2 c2 w2 l2 rec2 h2
    have heq2 := simple_ok_eq gen (simple_workflow gen initState t1 c1 w1 l1).2
      t2 c2 w2 l2 s4 s5 s6 hg4 hg5 hg6
    constructor
    · rw [recordHistoryView, heq1]
      simp [initState]
    · refine ⟨[⟨(simple_workflow gen initState t1 c1 w1 l1).2.history.length, "research",
          "Researcher", .research (mkResearch t2 s4)⟩,
        ⟨(simple_workflow gen initState t1 c1 w1 l1).2.history.length + 1, "fact_check",
          "FactChecker", .factCheck (mkFactCheck t2 s5)⟩,
        ⟨(simple_workflow gen initState t1 c1 w1 l1).2.history.length + 2, "write",
          "Writer", .article (mkArticle t2 w2 s6)⟩], by simp, ?_⟩
      rw [recordHistoryView, recordHistoryView, heq2]

/-- Witness for C7: the second-run conjunct applied at a concrete oracle —
after two Simple runs on one instance the live view has 6 entries, 3 from
each run. -/
theorem claim_C7_witness :
    (recordHistoryView (simple_workflow genOk initState "T" "" "informative" "medium").2).length
      = 3 ∧
    ∃ tail, tail.length = 3 ∧
      recordHistoryView (simple_workflow genOk
          (simple_workflow genOk initState "T" "" "informative" "medium").2
          "U" "" "informative" "medium").2 =
        recordHistoryView (simple_workflow genOk initState "T" "" "informative" "medium").2
          ++ tail :=
  claim_C7_history_append_only_and_live.2.2.2.2.2 genOk "T" "" "informative" "medium"
    "U" "" "informative" "medium"
    ⟨"simple", "T", mkResearch "T" "text", mkFactCheck "T" "text",
     mkArticle "T" "informative" "text"⟩
    ⟨"simple", "U", mkResearch "U" "text", mkFactCheck "U" "text",
     mkArticle "U" "informative" "text"⟩ rfl rfl
